import Mathlib

/-!
Shallow embedding of the go-llm repository core: the canonical
request/response model, the provider registry with model-identifier
resolution, the per-vendor adapters (OpenAI, Anthropic, Google) with
their wire-request construction and response conversion, the streaming
normalizers, and the task router.  HTTP transport, JSON decoding and
the clock are abstracted as explicit oracle parameters; everything else
is translated directly from the Go source.
-/

namespace GoLLM

/-- Carrier for Go `float64` values.  The modeled code never performs
floating-point arithmetic on these values (they are only stored and
copied), so any carrier with decidable equality is faithful; we use the
rationals. -/
abbrev GoFloat := ℚ

/-- Carrier for Go `interface{}` values stored in the extra-parameters
bag.  The modeled code only ever stores values and reads them back with
type assertions to `int`. -/
inductive GoValue where
  | vint (i : Int)
  | vstr (s : String)
  | vbool (b : Bool)
  deriving DecidableEq, Repr

/-- Embeds `llm.Message` from the Go source: role plus text content. -/
structure Message where
  role : String
  content : String
  deriving DecidableEq, Repr

/-- Embeds `llm.CompletionRequest`.  Pointer-typed optional Go fields become
`Option`; the `ExtraParams` map is an association list with distinct
keys. -/
structure CompletionRequest where
  model : String := ""
  messages : List Message := []
  temperature : Option GoFloat := none
  maxTokens : Option Int := none
  topP : Option GoFloat := none
  frequencyPenalty : Option GoFloat := none
  presencePenalty : Option GoFloat := none
  stop : List String := []
  stream : Bool := false
  logitBias : List (String × Int) := []
  user : String := ""
  extraParams : List (String × GoValue) := []
  deriving DecidableEq, Repr

/-- Embeds `llm.CompletionUsage`. -/
structure CompletionUsage where
  promptTokens : Int := 0
  completionTokens : Int := 0
  totalTokens : Int := 0
  deriving DecidableEq, Repr

/-- Embeds `llm.CompletionChoice`. -/
structure CompletionChoice where
  index : Int := 0
  message : Message
  finishReason : String := ""
  deriving DecidableEq, Repr

/-! Vendor wire-response structures, needed both for the response
conversions and for the `RawResponse` diagnostic field. -/

/-- Embeds `openai.openAIMessage`. -/
structure OpenAIMessage where
  role : String
  content : String
  deriving DecidableEq, Repr

/-- Embeds `openai.openAIResponseChoice`. -/
structure OpenAIResponseChoice where
  index : Int
  message : OpenAIMessage
  finishReason : String
  deriving DecidableEq, Repr

/-- Embeds `openai.openAIResponseUsage`. -/
structure OpenAIResponseUsage where
  promptTokens : Int := 0
  completionTokens : Int := 0
  totalTokens : Int := 0
  deriving DecidableEq, Repr

/-- Embeds `openai.openAIResponse`. -/
structure OpenAIResponse where
  id : String := ""
  object : String := ""
  created : Int := 0
  model : String := ""
  choices : List OpenAIResponseChoice := []
  usage : OpenAIResponseUsage := {}
  systemFingerprint : String := ""
  deriving DecidableEq, Repr

/-- Embeds `anthropic.anthropicResponseContent`. -/
structure AnthropicResponseContent where
  type : String
  text : String
  deriving DecidableEq, Repr

/-- Embeds `anthropic.anthropicUsage`: the vendor reports input and output
token counts only; there is no total field on the wire. -/
structure AnthropicUsage where
  inputTokens : Int := 0
  outputTokens : Int := 0
  deriving DecidableEq, Repr

/-- Embeds `anthropic.anthropicResponse`. -/
structure AnthropicResponse where
  id : String := ""
  type : String := ""
  role : String := ""
  content : List AnthropicResponseContent := []
  model : String := ""
  stopReason : String := ""
  stopSequence : String := ""
  usage : AnthropicUsage := {}
  deriving DecidableEq, Repr

/-- Embeds `google.geminiResponsePart`. -/
structure GeminiResponsePart where
  text : String
  deriving DecidableEq, Repr

/-- Embeds `google.geminiResponseContent`. -/
structure GeminiResponseContent where
  role : String := ""
  parts : List GeminiResponsePart := []
  deriving DecidableEq, Repr

/-- Embeds `google.geminiCandidate`. -/
structure GeminiCandidate where
  content : GeminiResponseContent := {}
  finishReason : String := ""
  index : Int := 0
  deriving DecidableEq, Repr

/-- Embeds `google.geminiUsage`: the vendor reports prompt, candidates and
total token counts as separate fields. -/
structure GeminiUsage where
  promptTokenCount : Int := 0
  candidatesTokenCount : Int := 0
  totalTokenCount : Int := 0
  deriving DecidableEq, Repr

/-- Embeds `google.geminiResponse`. -/
structure GeminiResponse where
  candidates : List GeminiCandidate := []
  usage : GeminiUsage := {}
  deriving DecidableEq, Repr

/-- Payload of the `RawResponse interface{}` diagnostic field of a
`CompletionResponse`: one variant per vendor response type that the
source ever stores there. -/
inductive GoRaw where
  | openai (r : OpenAIResponse)
  | anthropic (r : AnthropicResponse)
  | gemini (r : GeminiResponse)
  deriving DecidableEq, Repr

/-- Embeds `llm.CompletionResponse`. -/
structure CompletionResponse where
  id : String := ""
  object : String := ""
  created : Int := 0
  model : String := ""
  choices : List CompletionChoice := []
  usage : CompletionUsage := {}
  systemFingerprint : String := ""
  provider : String := ""
  rawResponse : Option GoRaw := none
  deriving DecidableEq, Repr

/-- The typed error kinds surfaced by the core, one constructor per
distinct `fmt.Errorf` site kind in the Go source. -/
inductive GoError where
  | invalidIdentifier (modelID : String)
  | providerNotFound (name : String)
  | modelUnsupported (model provider : String)
  | missingCredential (provider : String)
  | upstream (provider status body : String)
  | noCandidates
  deriving DecidableEq, Repr

/-! ## Provider registry and model-identifier resolution (`llm/providers.go`) -/

/-- The capability view of a registered provider that the registry
consults: its `Name()` and the model allow-list backing
`SupportsModel`. -/
structure RegProvider where
  name : String
  models : List String
  deriving DecidableEq, Repr

/-- The `SupportsModel` loop common to every adapter: linear membership
test against the adapter's static model list. -/
def supportsModel (p : RegProvider) (model : String) : Bool :=
  p.models.contains model

/-- The registry's `registeredProviders` map, modeled as an association
list with distinct names; `GetProvider` is first-match lookup. -/
def findProvider (reg : List RegProvider) (name : String) : Option RegProvider :=
  reg.find? (fun p => p.name == name)

/-- Splits a character list at the first `'/'`, returning the prefix
and the remainder, or `none` when no `'/'` occurs: the semantics of
Go's `strings.SplitN(s, "/", 2)` restricted to the two outcomes the
source distinguishes. -/
def splitFirstSlash : List Char → Option (List Char × List Char)
  | [] => none
  | c :: cs =>
    if c = '/' then some ([], cs)
    else match splitFirstSlash cs with
      | none => none
      | some (p, m) => some (c :: p, m)

/-- Embeds `llm.parseModelIdentifier`: split `"provider/model"` on the first
`'/'`; an identifier with no `'/'` is invalid. -/
def parseModelIdentifier (modelID : String) : Except GoError (String × String) :=
  match splitFirstSlash modelID.data with
  | none => .error (.invalidIdentifier modelID)
  | some (p, m) => .ok (String.mk p, String.mk m)

/-- Embeds `llm.getProviderForModel`: parse the identifier, look the provider
up in the registry, then check `SupportsModel`. -/
def getProviderForModel (reg : List RegProvider) (modelID : String) :
    Except GoError (RegProvider × String) :=
  match parseModelIdentifier modelID with
  | .error e => .error e
  | .ok (providerName, modelName) =>
    match findProvider reg providerName with
    | none => .error (.providerNotFound providerName)
    | some p =>
      if supportsModel p modelName then .ok (p, modelName)
      else .error (.modelUnsupported modelName providerName)

/-! ## Option combinators (`llm/providers.go`) -/

/-- Embeds `llm.CompletionOption`. -/
abbrev CompletionOption := CompletionRequest → CompletionRequest

/-- Embeds `llm.WithTemperature`. -/
def withTemperature (temp : GoFloat) : CompletionOption :=
  fun req => { req with temperature := some temp }

/-- Embeds `llm.WithMaxTokens`. -/
def withMaxTokens (tokens : Int) : CompletionOption :=
  fun req => { req with maxTokens := some tokens }

/-- Embeds `llm.WithTopP`. -/
def withTopP (topP : GoFloat) : CompletionOption :=
  fun req => { req with topP := some topP }

/-- Embeds `llm.WithUser`. -/
def withUser (user : String) : CompletionOption :=
  fun req => { req with user := user }

/-- Assignment `m[k] = v` on a Go map modeled as an association list:
replace the binding of `k` if present, otherwise append it. -/
def assocInsert (m : List (String × GoValue)) (k : String) (v : GoValue) :
    List (String × GoValue) :=
  match m with
  | [] => [(k, v)]
  | (k', v') :: rest =>
    if k' = k then (k, v) :: rest else (k', v') :: assocInsert rest k v

/-- Go map lookup on the association-list model. -/
def assocFind (m : List (String × GoValue)) (k : String) : Option GoValue :=
  match m with
  | [] => none
  | (k', v') :: rest => if k' = k then some v' else assocFind rest k

/-- Embeds `llm.WithExtraParams`: assign every entry of `params` into the
request's extra-parameters bag (the nil map is the empty list). -/
def withExtraParams (params : List (String × GoValue)) : CompletionOption :=
  fun req =>
    { req with extraParams :=
        params.foldl (fun m kv => assocInsert m kv.1 kv.2) req.extraParams }

/-- The option-application loop of `llm.Completion`: build the request
from the bare model name and messages, then apply each option in call
order. -/
def llmBuildRequest (modelName : String) (messages : List Message)
    (opts : List CompletionOption) : CompletionRequest :=
  opts.foldl (fun req opt => opt req) { model := modelName, messages := messages }

/-- The option-application loop of `llm.CompletionStream`: identical but
the request starts with `Stream = true`. -/
def llmBuildStreamRequest (modelName : String) (messages : List Message)
    (opts : List CompletionOption) : CompletionRequest :=
  opts.foldl (fun req opt => opt req)
    { model := modelName, messages := messages, stream := true }

/-! ## Anthropic adapter (`providers/anthropic`) -/

/-- Embeds `anthropic.Provider`: the fields the modeled behavior reads
(credential and model allow-list). -/
structure AnthropicProvider where
  apiKey : String
  modelList : List String
  deriving DecidableEq, Repr

/-- The Anthropic adapter's static model allow-list. -/
def anthropicModels : List String :=
  ["claude-3-7-sonnet-20250219", "claude-3-opus-20240229",
   "claude-3-sonnet-20240229", "claude-3-haiku-20240307",
   "claude-2.1", "claude-2.0", "claude-instant-1.2"]

/-- Embeds `anthropic.NewProviderWithKey`: construction always succeeds,
whatever the credential string. -/
def anthropicNewProviderWithKey (apiKey : String) : AnthropicProvider :=
  { apiKey := apiKey, modelList := anthropicModels }

/-- Embeds `anthropic.anthropicMessage`. -/
structure AnthropicMessage where
  role : String
  content : String
  deriving DecidableEq, Repr

/-- Embeds `anthropic.anthropicRequest`: the wire request.  `MaxTokens`,
`Temperature` and `TopP` are plain (non-pointer) Go fields, so absent
caller values surface as Go zero values. -/
structure AnthropicRequest where
  model : String := ""
  messages : List AnthropicMessage := []
  system : String := ""
  maxTokens : Int := 0
  temperature : GoFloat := 0
  topP : GoFloat := 0
  stream : Bool := false
  stopSequences : List String := []
  deriving DecidableEq, Repr

/-- Embeds `anthropic.convertMessages`: pull the system message out into a
top-level field (the last system message wins) and map every remaining
role other than `assistant` to `user`. -/
def anthropicConvertMessages (messages : List Message) :
    List AnthropicMessage × String :=
  messages.foldl
    (fun (acc : List AnthropicMessage × String) msg =>
      if msg.role = "system" then (acc.1, msg.content)
      else
        let role := if msg.role = "assistant" then "assistant" else "user"
        (acc.1 ++ [{ role := role, content := msg.content }], acc.2))
    ([], "")

/-- Wire-request construction of `anthropic.Provider.Completion`:
`MaxTokens` defaults to 4096 when the caller supplied none; the other
optional fields default to Go zero values. -/
def anthropicBuildCompletionRequest (req : CompletionRequest) : AnthropicRequest :=
  let conv := anthropicConvertMessages req.messages
  { model := req.model
    messages := conv.1
    system := conv.2
    stream := false
    maxTokens := match req.maxTokens with | some v => v | none => 4096
    temperature := match req.temperature with | some v => v | none => 0
    topP := match req.topP with | some v => v | none => 0
    stopSequences := req.stop }

/-- Wire-request construction of `anthropic.Provider.CompletionStream`:
identical to the completion path except `Stream = true`. -/
def anthropicBuildStreamRequest (req : CompletionRequest) : AnthropicRequest :=
  let conv := anthropicConvertMessages req.messages
  { model := req.model
    messages := conv.1
    system := conv.2
    stream := true
    maxTokens := match req.maxTokens with | some v => v | none => 4096
    temperature := match req.temperature with | some v => v | none => 0
    topP := match req.topP with | some v => v | none => 0
    stopSequences := req.stop }

/-- Response conversion of `anthropic.Provider.Completion`: concatenate
the text content blocks, stamp the provider, and recompute the usage
total as input plus output tokens (the vendor reports no total).
`now` stands for `time.Now().Unix()`. -/
def anthropicConvertResponse (now : Int) (resp : AnthropicResponse) :
    CompletionResponse :=
  let content := resp.content.foldl
    (fun acc c => if c.type = "text" then acc ++ c.text else acc) ""
  { id := resp.id
    object := "chat.completion"
    created := now
    model := resp.model
    provider := "anthropic"
    rawResponse := some (.anthropic resp)
    usage :=
      { promptTokens := resp.usage.inputTokens
        completionTokens := resp.usage.outputTokens
        totalTokens := resp.usage.inputTokens + resp.usage.outputTokens }
    choices :=
      [{ index := 0
         message := { role := "assistant", content := content }
         finishReason := resp.stopReason }] }

/-- Embeds `anthropic.Provider.Completion` with the HTTP transport abstracted
as an oracle; the boolean records whether the network was consulted.
An empty credential fails before any network activity. -/
def anthropicCompletion (now : Int) (p : AnthropicProvider)
    (req : CompletionRequest)
    (http : AnthropicRequest → Except GoError AnthropicResponse) :
    Except GoError CompletionResponse × Bool :=
  if p.apiKey = "" then (.error (.missingCredential "anthropic"), false)
  else
    match http (anthropicBuildCompletionRequest req) with
    | .error e => (.error e, true)
    | .ok resp => (.ok (anthropicConvertResponse now resp), true)

/-- Embeds `anthropic.AnthropicResponseStream`: stream handle state plus the
remaining (already line-split) connection content. -/
structure AnthropicStreamState where
  provider : String := ""
  id : String := ""
  streamFinished : Bool := false
  lines : List String := []
  deriving DecidableEq, Repr

/-- Embeds `anthropic.Provider.CompletionStream` with transport abstracted:
the oracle yields the SSE body as lines; an empty credential fails
before any network activity. -/
def anthropicCompletionStream (p : AnthropicProvider) (req : CompletionRequest)
    (http : AnthropicRequest → Except GoError (List String)) :
    Except GoError AnthropicStreamState × Bool :=
  if p.apiKey = "" then (.error (.missingCredential "anthropic"), false)
  else
    match http (anthropicBuildStreamRequest req) with
    | .error e => (.error e, true)
    | .ok body => (.ok { provider := "anthropic", lines := body }, true)

/-! ## Google adapter (`providers/google`) -/

/-- Embeds `google.Provider`. -/
structure GoogleProvider where
  apiKey : String
  modelList : List String
  deriving DecidableEq, Repr

/-- The Google adapter's static model allow-list. -/
def googleModels : List String :=
  ["gemini-1.5-pro", "gemini-1.5-flash", "gemini-2.0-pro", "gemini-2.0-flash"]

/-- Embeds `google.NewProviderWithKey`: construction always succeeds. -/
def googleNewProviderWithKey (apiKey : String) : GoogleProvider :=
  { apiKey := apiKey, modelList := googleModels }

/-- Embeds `google.geminiPart` (request side). -/
structure GeminiPart where
  text : String := ""
  deriving DecidableEq, Repr

/-- Embeds `google.geminiContent` (request side). -/
structure GeminiContent where
  role : String := ""
  parts : List GeminiPart := []
  deriving DecidableEq, Repr

/-- Embeds `google.geminiRequest` with its inline generation config. -/
structure GeminiRequest where
  contents : List GeminiContent := []
  temperature : Option GoFloat := none
  maxOutputTokens : Option Int := none
  topP : Option GoFloat := none
  topK : Option Int := none
  stopSequences : List String := []
  stream : Bool := false
  deriving DecidableEq, Repr

/-- An HTTP call of the Google adapter: the URL embeds the model and
the API key, the body is the wire request. -/
structure GeminiHttpCall where
  url : String
  req : GeminiRequest
  deriving DecidableEq, Repr

/-- Embeds `google.convertMessagesToGeminiFormat`: the first system message is
re-emitted as a leading user message; `assistant` maps to `model` and
every other non-user role maps to `user`. -/
def geminiConvertMessages (messages : List Message) : List GeminiContent :=
  let systemMessage :=
    match messages.find? (fun m => m.role == "system") with
    | some m => m.content
    | none => ""
  let lead : List GeminiContent :=
    if systemMessage ≠ "" then
      [{ role := "user", parts := [{ text := systemMessage }] }]
    else []
  messages.foldl
    (fun acc msg =>
      if msg.role = "system" then acc
      else
        let role :=
          if msg.role = "assistant" then "model"
          else if msg.role ≠ "user" then "user"
          else msg.role
        acc ++ [{ role := role, parts := [{ text := msg.content }] }])
    lead

/-- Go map lookup plus `int` type assertion, as in
`req.ExtraParams["topK"].(int)`. -/
def lookupGoInt (m : List (String × GoValue)) (k : String) : Option Int :=
  match assocFind m k with
  | some (.vint i) => some i
  | _ => none

/-- The Google API endpoint constant. -/
def googleEndpoint : String :=
  "https://generativelanguage.googleapis.com/v1beta/models"

/-- Wire-call construction of `google.Provider.Completion`: optional
fields stay pointers (absent stays absent), `topK` is read from the
extra-parameters bag. -/
def googleBuildCompletionCall (p : GoogleProvider) (req : CompletionRequest) :
    GeminiHttpCall :=
  { url := googleEndpoint ++ "/" ++ req.model ++ ":generateContent?key=" ++ p.apiKey
    req :=
      { contents := geminiConvertMessages req.messages
        temperature := req.temperature
        maxOutputTokens := req.maxTokens
        topP := req.topP
        topK := lookupGoInt req.extraParams "topK"
        stopSequences := req.stop
        stream := false } }

/-- Wire-call construction of `google.Provider.CompletionStream`. -/
def googleBuildStreamCall (p : GoogleProvider) (req : CompletionRequest) :
    GeminiHttpCall :=
  { url := googleEndpoint ++ "/" ++ req.model ++ ":streamGenerateContent?key=" ++ p.apiKey
    req :=
      { contents := geminiConvertMessages req.messages
        temperature := req.temperature
        maxOutputTokens := req.maxTokens
        topP := req.topP
        topK := lookupGoInt req.extraParams "topK"
        stopSequences := req.stop
        stream := true } }

/-- Response conversion of `google.Provider.Completion`: candidates map
to choices with their text parts concatenated; the three usage fields
are copied verbatim from the vendor report.  `nano` stands for
`time.Now().UnixNano()` and `now` for `time.Now().Unix()`. -/
def geminiConvertResponse (nano now : Int) (model : String)
    (resp : GeminiResponse) : CompletionResponse :=
  { id := "google-" ++ toString nano
    object := "chat.completion"
    created := now
    model := model
    provider := "google"
    rawResponse := some (.gemini resp)
    usage :=
      { promptTokens := resp.usage.promptTokenCount
        completionTokens := resp.usage.candidatesTokenCount
        totalTokens := resp.usage.totalTokenCount }
    choices := resp.candidates.map (fun candidate =>
      { index := candidate.index
        finishReason := candidate.finishReason
        message :=
          { role := "assistant"
            content := candidate.content.parts.foldl
              (fun acc part => acc ++ part.text) "" } }) }

/-- Embeds `google.Provider.Completion` with transport abstracted: credential
gate, wire call, empty-candidate check, then conversion. -/
def googleCompletion (nano now : Int) (p : GoogleProvider)
    (req : CompletionRequest)
    (http : GeminiHttpCall → Except GoError GeminiResponse) :
    Except GoError CompletionResponse × Bool :=
  if p.apiKey = "" then (.error (.missingCredential "google"), false)
  else
    match http (googleBuildCompletionCall p req) with
    | .error e => (.error e, true)
    | .ok resp =>
      if resp.candidates = [] then (.error .noCandidates, true)
      else (.ok (geminiConvertResponse nano now req.model resp), true)

/-- Embeds `google.GeminiResponseStream`: stream handle state plus remaining
connection lines. -/
structure GeminiStreamState where
  provider : String := ""
  streamFinished : Bool := false
  lines : List String := []
  deriving DecidableEq, Repr

/-- Embeds `google.Provider.CompletionStream` with transport abstracted. -/
def googleCompletionStream (p : GoogleProvider) (req : CompletionRequest)
    (http : GeminiHttpCall → Except GoError (List String)) :
    Except GoError GeminiStreamState × Bool :=
  if p.apiKey = "" then (.error (.missingCredential "google"), false)
  else
    match http (googleBuildStreamCall p req) with
    | .error e => (.error e, true)
    | .ok body => (.ok { provider := "google", lines := body }, true)

/-! ## OpenAI adapter (`providers/openai`) -/

/-- Embeds `openai.Provider`. -/
structure OpenAIProvider where
  apiKey : String
  modelList : List String
  deriving DecidableEq, Repr

/-- The OpenAI adapter's static model allow-list (the uncommented
entries of the source list). -/
def openaiModels : List String :=
  ["gpt-4", "gpt-4.1", "gpt-4.1-2025-04-14", "gpt-4.1-mini",
   "gpt-4.1-mini-2025-04-14", "gpt-4.1-nano", "gpt-4.1-nano-2025-04-14",
   "gpt-4o", "gpt-4.5-preview", "gpt-4.5-preview-2025-02-27",
   "gpt-4o-mini", "gpt-4o-mini-2024-07-18", "o1", "o1-mini",
   "o3-mini", "o3-mini-2025-01-31", "o4-mini", "o4-mini-2025-04-16",
   "o1-mini-2024-09-12", "o1-preview", "o1-preview-2024-09-12",
   "o1-2024-12-17", "chatgpt-4o-latest", "gpt-4o-2024-05-13",
   "gpt-4o-2024-08-06", "gpt-4o-2024-11-20", "gpt-4-turbo-preview",
   "gpt-4-0613", "gpt-4-turbo", "gpt-4-turbo-2024-04-09",
   "gpt-4-1106-preview", "gpt-4-0125-preview", "gpt-3.5-turbo",
   "gpt-3.5-turbo-1106", "gpt-3.5-turbo-0125", "gpt-3.5-turbo-16k"]

/-- Embeds `openai.NewProviderWithKey`: construction always succeeds. -/
def openaiNewProviderWithKey (apiKey : String) : OpenAIProvider :=
  { apiKey := apiKey, modelList := openaiModels }

/-- Embeds `openai.openAIRequest`: the wire request. -/
structure OpenAIRequest where
  model : String := ""
  messages : List OpenAIMessage := []
  temperature : Option GoFloat := none
  maxTokens : Option Int := none
  maxCompletionTokens : Option Int := none
  topP : Option GoFloat := none
  frequencyPenalty : Option GoFloat := none
  presencePenalty : Option GoFloat := none
  stop : List String := []
  stream : Bool := false
  n : Int := 0
  logitBias : List (String × Int) := []
  user : String := ""
  deriving DecidableEq, Repr

/-- The models for which `openai.getModelMaxTokensParam` selects the
`max_completion_tokens` wire field. -/
def completionTokenModels : List String :=
  ["o1", "o1-mini", "o3-mini", "o3-mini-2025-01-31", "o4-mini",
   "o4-mini-2025-04-16", "o1-mini-2024-09-12", "o1-preview",
   "o1-preview-2024-09-12", "o1-2024-12-17"]

/-- Embeds `openai.getModelMaxTokensParam`. -/
def getModelMaxTokensParam (model : String) : String :=
  if completionTokenModels.contains model then "max_completion_tokens"
  else "max_tokens"

/-- Wire-request construction of `openai.Provider.Completion`: choose
between the two token-limit wire fields by model, copy the remaining
fields, force `Stream = false` and `N = 1`. -/
def openaiBuildCompletionRequest (req : CompletionRequest) : OpenAIRequest :=
  let base : OpenAIRequest :=
    { model := req.model
      messages := req.messages.map (fun m => { role := m.role, content := m.content })
      temperature := req.temperature
      topP := req.topP
      frequencyPenalty := req.frequencyPenalty
      presencePenalty := req.presencePenalty
      stop := req.stop
      stream := false
      logitBias := req.logitBias
      user := req.user
      n := 1 }
  if getModelMaxTokensParam req.model = "max_completion_tokens" then
    match req.maxTokens with
    | some v => { base with maxCompletionTokens := some v }
    | none => base
  else { base with maxTokens := req.maxTokens }

/-- Wire-request construction of `openai.Provider.CompletionStream`:
identical except `Stream = true`. -/
def openaiBuildStreamRequest (req : CompletionRequest) : OpenAIRequest :=
  let base : OpenAIRequest :=
    { model := req.model
      messages := req.messages.map (fun m => { role := m.role, content := m.content })
      temperature := req.temperature
      topP := req.topP
      frequencyPenalty := req.frequencyPenalty
      presencePenalty := req.presencePenalty
      stop := req.stop
      stream := true
      logitBias := req.logitBias
      user := req.user
      n := 1 }
  if getModelMaxTokensParam req.model = "max_completion_tokens" then
    match req.maxTokens with
    | some v => { base with maxCompletionTokens := some v }
    | none => base
  else { base with maxTokens := req.maxTokens }

/-- Response conversion of `openai.Provider.Completion`: a verbatim
field-by-field copy, with the provider stamped and the raw payload
kept. -/
def openaiConvertResponse (resp : OpenAIResponse) : CompletionResponse :=
  { id := resp.id
    object := resp.object
    created := resp.created
    model := resp.model
    systemFingerprint := resp.systemFingerprint
    provider := "openai"
    rawResponse := some (.openai resp)
    usage :=
      { promptTokens := resp.usage.promptTokens
        completionTokens := resp.usage.completionTokens
        totalTokens := resp.usage.totalTokens }
    choices := resp.choices.map (fun choice =>
      { index := choice.index
        finishReason := choice.finishReason
        message := { role := choice.message.role, content := choice.message.content } }) }

/-- Embeds `openai.Provider.Completion` with transport abstracted. -/
def openaiCompletion (p : OpenAIProvider) (req : CompletionRequest)
    (http : OpenAIRequest → Except GoError OpenAIResponse) :
    Except GoError CompletionResponse × Bool :=
  if p.apiKey = "" then (.error (.missingCredential "openai"), false)
  else
    match http (openaiBuildCompletionRequest req) with
    | .error e => (.error e, true)
    | .ok resp => (.ok (openaiConvertResponse resp), true)

/-- Embeds `openai.OpenAIResponseStream`: stream handle state plus remaining
connection lines. -/
structure OpenAIStreamState where
  provider : String := ""
  currentRole : String := ""
  model : String := ""
  id : String := ""
  created : Int := 0
  fingerprint : String := ""
  chunkIndex : Int := 0
  streamFinished : Bool := false
  lines : List String := []
  deriving DecidableEq, Repr

/-- Embeds `openai.Provider.CompletionStream` with transport abstracted. -/
def openaiCompletionStream (p : OpenAIProvider) (req : CompletionRequest)
    (http : OpenAIRequest → Except GoError (List String)) :
    Except GoError OpenAIStreamState × Bool :=
  if p.apiKey = "" then (.error (.missingCredential "openai"), false)
  else
    match http (openaiBuildStreamRequest req) with
    | .error e => (.error e, true)
    | .ok body => (.ok { provider := "openai", lines := body }, true)

/-! ## Streaming normalizers

The open connection is modeled as the list of lines that
`bufReader.ReadLine` would deliver (already whitespace-trimmed);
exhaustion of the list is `io.EOF` from the reader.  JSON decoding of
an event payload (`json.Unmarshal`) is abstracted as an oracle
returning `none` exactly when unmarshalling would fail. -/

/-- Outcome of one `Recv` call: a canonical chunk, end-of-sequence
(`io.EOF`), or a surfaced decode failure on the given payload. -/
inductive RecvResult where
  | chunk (r : CompletionResponse)
  | eof
  | parseFailure (payload : String)
  deriving DecidableEq, Repr

/-- Strips `marker` from the front of `l`, or `none` when `marker` is
not a prefix: Go's `bytes.HasPrefix` plus `bytes.TrimPrefix`. -/
def stripPrefixChars : List Char → List Char → Option (List Char)
  | [], l => some l
  | _ :: _, [] => none
  | m :: ms, c :: cs => if m = c then stripPrefixChars ms cs else none

/-- Strips the SSE data marker `"data: "` from a line. -/
def stripDataMarker (line : String) : Option String :=
  (stripPrefixChars "data: ".data line.data).map String.mk

/-- Whether a line is an SSE comment (starts with `':'`). -/
def isCommentLine (line : String) : Bool :=
  match line.data with
  | c :: _ => c == ':'
  | [] => false

/-- Go's `strings.Contains`: whether `needle` occurs as a contiguous
run inside `haystack`. -/
def containsChars (needle haystack : List Char) : Bool :=
  (stripPrefixChars needle haystack).isSome ||
    match haystack with
    | [] => false
    | _ :: rest => containsChars needle rest

/-- Embeds `openai.openAIStreamDelta`. -/
structure OpenAIStreamDelta where
  role : String := ""
  content : String := ""
  deriving DecidableEq, Repr

/-- Embeds `openai.openAIStreamChoice`. -/
structure OpenAIStreamChoice where
  index : Int := 0
  delta : OpenAIStreamDelta := {}
  finishReason : String := ""
  deriving DecidableEq, Repr

/-- Embeds `openai.openAIStreamChunk`. -/
structure OpenAIStreamChunk where
  id : String := ""
  object : String := ""
  created : Int := 0
  model : String := ""
  choices : List OpenAIStreamChoice := []
  systemFingerprint : String := ""
  deriving DecidableEq, Repr

/-- The line loop of `openai.OpenAIResponseStream.Recv`: skip blank and
comment lines and lines without the data marker, finish on the
`[DONE]` sentinel, surface decode failures, skip events without
choices, and otherwise emit one canonical chunk. -/
def openAIRecvAux (decode : String → Option OpenAIStreamChunk)
    (s : OpenAIStreamState) : List String → RecvResult × OpenAIStreamState
  | [] => (.eof, { s with lines := [] })
  | line :: rest =>
    if line = "" then openAIRecvAux decode s rest
    else if isCommentLine line then openAIRecvAux decode s rest
    else match stripDataMarker line with
      | none => openAIRecvAux decode s rest
      | some payload =>
        if payload = "[DONE]" then
          (.eof, { s with streamFinished := true, lines := rest })
        else match decode payload with
          | none => (.parseFailure payload, { s with lines := rest })
          | some chunk =>
            let s1 :=
              if s.id = "" then
                { s with id := chunk.id, model := chunk.model,
                         created := chunk.created,
                         fingerprint := chunk.systemFingerprint }
              else s
            match chunk.choices with
            | [] => openAIRecvAux decode s1 rest
            | choice :: _ =>
              let s2 :=
                if choice.delta.role ≠ "" then
                  { s1 with currentRole := choice.delta.role }
                else s1
              let resp : CompletionResponse :=
                { id := s2.id
                  object := "chat.completion.chunk"
                  created := s2.created
                  model := s2.model
                  systemFingerprint := s2.fingerprint
                  provider := s2.provider
                  choices :=
                    [{ index := choice.index
                       finishReason := choice.finishReason
                       message :=
                         { role := s2.currentRole
                           content := choice.delta.content } }] }
              (.chunk resp, { s2 with chunkIndex := s2.chunkIndex + 1, lines := rest })

/-- Embeds `openai.OpenAIResponseStream.Recv`: once the stream is marked
finished, return end-of-sequence without touching the connection. -/
def openAIRecv (decode : String → Option OpenAIStreamChunk)
    (s : OpenAIStreamState) : RecvResult × OpenAIStreamState :=
  if s.streamFinished then (.eof, s) else openAIRecvAux decode s s.lines

/-- Embeds `anthropic.anthropicEvent`'s content block payload. -/
structure AnthropicContentBlock where
  type : String := ""
  text : String := ""
  deriving DecidableEq, Repr

/-- Embeds `anthropic.anthropicEvent`'s delta payload. -/
structure AnthropicEventDelta where
  type : String := ""
  text : String := ""
  stopReason : String := ""
  deriving DecidableEq, Repr

/-- Embeds `anthropic.anthropicEvent`. -/
structure AnthropicEvent where
  type : String := ""
  message : Option AnthropicResponse := none
  contentBlock : Option AnthropicContentBlock := none
  delta : Option AnthropicEventDelta := none
  deriving DecidableEq, Repr

/-- Intermediate result of the Anthropic receive loop: the outcome plus
the updated mutable stream fields and remaining connection lines. -/
structure AnthropicRecvOut where
  result : RecvResult
  id : String
  finished : Bool
  rest : List String
  deriving DecidableEq, Repr

/-- The line loop of `anthropic.AnthropicResponseStream.Recv`: skip
blank and non-data lines, finish on `[DONE]`, surface decode failures,
emit a chunk for content-start and content-delta events (a delta with
a stop reason also finishes the stream), record the response id from a
message-start event, and skip every other event kind.  `now` stands
for `time.Now().Unix()`. -/
def anthropicRecvAux (decode : String → Option AnthropicEvent) (now : Int)
    (provider : String) (id : String) : List String → AnthropicRecvOut
  | [] => { result := .eof, id := id, finished := false, rest := [] }
  | line :: rest =>
    if line = "" then anthropicRecvAux decode now provider id rest
    else match stripDataMarker line with
      | none => anthropicRecvAux decode now provider id rest
      | some payload =>
        if payload = "[DONE]" then
          { result := .eof, id := id, finished := true, rest := rest }
        else match decode payload with
          | none =>
            { result := .parseFailure payload, id := id, finished := false, rest := rest }
          | some event =>
            if event.type = "content_block_start" ∨ event.type = "content_block_delta" then
              let content :=
                match event.contentBlock with
                | some cb => cb.text
                | none =>
                  match event.delta with
                  | some d => d.text
                  | none => ""
              let finished :=
                match event.contentBlock with
                | some _ => false
                | none =>
                  match event.delta with
                  | some d => d.stopReason ≠ ""
                  | none => false
              let resp : CompletionResponse :=
                { id := id
                  object := "chat.completion.chunk"
                  created := now
                  provider := provider
                  choices :=
                    [{ index := 0
                       message := { role := "assistant", content := content } }] }
              { result := .chunk resp, id := id, finished := finished, rest := rest }
            else if event.type = "message_start" then
              match event.message with
              | some m => anthropicRecvAux decode now provider m.id rest
              | none => anthropicRecvAux decode now provider id rest
            else anthropicRecvAux decode now provider id rest

/-- Embeds `anthropic.AnthropicResponseStream.Recv`. -/
def anthropicRecv (decode : String → Option AnthropicEvent) (now : Int)
    (s : AnthropicStreamState) : RecvResult × AnthropicStreamState :=
  if s.streamFinished then (.eof, s)
  else
    let out := anthropicRecvAux decode now s.provider s.id s.lines
    (out.result,
     { s with id := out.id, streamFinished := out.finished, lines := out.rest })

/-- Intermediate result of the Gemini receive loop. -/
structure GeminiRecvOut where
  result : RecvResult
  finished : Bool
  rest : List String
  deriving DecidableEq, Repr

/-- The line loop of `google.GeminiResponseStream.Recv`: skip blank and
non-data lines, finish on `[DONE]`; on a decode failure the line is
treated as end-of-stream when it mentions `finishReason` and is
otherwise silently skipped; decoded events without candidates are
skipped; otherwise the first candidate's parts are concatenated into
one chunk.  `nano` and `now` stand for the two clock reads. -/
def geminiRecvAux (decode : String → Option GeminiResponse) (nano now : Int)
    (provider : String) : List String → GeminiRecvOut
  | [] => { result := .eof, finished := false, rest := [] }
  | line :: rest =>
    if line = "" then geminiRecvAux decode nano now provider rest
    else match stripDataMarker line with
      | none => geminiRecvAux decode nano now provider rest
      | some payload =>
        if payload = "[DONE]" then
          { result := .eof, finished := true, rest := rest }
        else match decode payload with
          | none =>
            if containsChars "finishReason".data payload.data then
              { result := .eof, finished := true, rest := rest }
            else geminiRecvAux decode nano now provider rest
          | some chunkResp =>
            match chunkResp.candidates with
            | [] => geminiRecvAux decode nano now provider rest
            | candidate :: _ =>
              let content := candidate.content.parts.foldl
                (fun acc part => acc ++ part.text) ""
              let resp : CompletionResponse :=
                { id := "google-" ++ toString nano
                  object := "chat.completion.chunk"
                  created := now
                  provider := provider
                  choices :=
                    [{ index := 0
                       message := { role := "assistant", content := content }
                       finishReason := candidate.finishReason }] }
              { result := .chunk resp, finished := false, rest := rest }

/-- Embeds `google.GeminiResponseStream.Recv`. -/
def geminiRecv (decode : String → Option GeminiResponse) (nano now : Int)
    (s : GeminiStreamState) : RecvResult × GeminiStreamState :=
  if s.streamFinished then (.eof, s)
  else
    let out := geminiRecvAux decode nano now s.provider s.lines
    (out.result, { s with streamFinished := out.finished, lines := out.rest })

/-! ## Task router

The `router` package's own source is not present; only its callers and
declarations are.  The definitions below are therefore modelled from
the specification's router section. -/

/-- Modelled from the spec: `router.ModelRoute` — task type, qualified
model id, priority (higher preferred), and an advisory max-tokens
ceiling that the selection never enforces. -/
structure ModelRoute where
  taskType : String
  modelID : String
  priority : Int
  maxTokens : Int := 0
  deriving DecidableEq, Repr

/-- Modelled from the spec: the router's configuration — the ordered
route list plus one fallback qualified model id. -/
structure RouterConfig where
  routes : List ModelRoute
  fallbackModel : String
  deriving DecidableEq, Repr

/-- Modelled from the spec: the route-table lookup for a task type,
preserving insertion order. -/
def routesForTask (r : RouterConfig) (taskType : String) : List ModelRoute :=
  r.routes.filter (fun route => route.taskType == taskType)

/-- Modelled from the spec: stable insertion into a list already sorted
by descending priority — the inserted route goes before the first
strictly-lower-priority entry, so equal priorities keep insertion
order. -/
def insertRoute (x : ModelRoute) : List ModelRoute → List ModelRoute
  | [] => [x]
  | y :: ys => if x.priority ≥ y.priority then x :: y :: ys else y :: insertRoute x ys

/-- Modelled from the spec: stable sort of the candidates by descending
priority, ties broken by original insertion order. -/
def sortRoutes : List ModelRoute → List ModelRoute
  | [] => []
  | x :: xs => insertRoute x (sortRoutes xs)

/-- Modelled from the spec: the candidate-iteration of `Router.Route`
over an already-ordered candidate list, with the per-model completion
call abstracted as an oracle.  Returns the outcome together with the
trace of qualified model ids attempted, in order: the first succeeding
candidate's response is returned immediately; when every candidate
fails (or there are none), the fallback is attempted exactly once and
its error is the call's error. -/
def tryRoutes (call : String → Except GoError CompletionResponse)
    (fallback : String) : List ModelRoute →
    Except GoError CompletionResponse × List String
  | [] => (call fallback, [fallback])
  | c :: cs =>
    match call c.modelID with
    | .ok resp => (.ok resp, [c.modelID])
    | .error _ =>
      let out := tryRoutes call fallback cs
      (out.1, c.modelID :: out.2)

/-- Modelled from the spec: `Router.Route` — look up the task's routes,
stable-sort them by descending priority, then iterate with fallback. -/
def routeCompletion (r : RouterConfig) (taskType : String)
    (call : String → Except GoError CompletionResponse) :
    Except GoError CompletionResponse × List String :=
  tryRoutes call r.fallbackModel (sortRoutes (routesForTask r taskType))

/-! ## Statement helpers and concrete test fixtures -/

/-- Decidable equality for `Except`, so concrete runs of the fallible
operations can be checked by evaluation. -/
instance exceptDecEq {ε α : Type} [DecidableEq ε] [DecidableEq α] :
    DecidableEq (Except ε α) := fun x y =>
  match x, y with
  | .ok a, .ok b =>
    if h : a = b then .isTrue (congrArg Except.ok h)
    else .isFalse (fun he => h (Except.ok.inj he))
  | .error a, .error b =>
    if h : a = b then .isTrue (congrArg Except.error h)
    else .isFalse (fun he => h (Except.error.inj he))
  | .ok _, .error _ => .isFalse (fun he => Except.noConfusion he)
  | .error _, .ok _ => .isFalse (fun he => Except.noConfusion he)

/-- Whether an `Except` carries a success. -/
def isOkB {ε α : Type} (e : Except ε α) : Bool :=
  match e with
  | .ok _ => true
  | .error _ => false

/-- Two completion requests agree on every field other than
temperature. -/
def sameExceptTemperature (r₁ r₂ : CompletionRequest) : Prop :=
  r₁.model = r₂.model ∧ r₁.messages = r₂.messages ∧
  r₁.maxTokens = r₂.maxTokens ∧ r₁.topP = r₂.topP ∧
  r₁.frequencyPenalty = r₂.frequencyPenalty ∧
  r₁.presencePenalty = r₂.presencePenalty ∧ r₁.stop = r₂.stop ∧
  r₁.stream = r₂.stream ∧ r₁.logitBias = r₂.logitBias ∧
  r₁.user = r₂.user ∧ r₁.extraParams = r₂.extraParams

/-- Two completion requests agree on every field other than
max-tokens. -/
def sameExceptMaxTokens (r₁ r₂ : CompletionRequest) : Prop :=
  r₁.model = r₂.model ∧ r₁.messages = r₂.messages ∧
  r₁.temperature = r₂.temperature ∧ r₁.topP = r₂.topP ∧
  r₁.frequencyPenalty = r₂.frequencyPenalty ∧
  r₁.presencePenalty = r₂.presencePenalty ∧ r₁.stop = r₂.stop ∧
  r₁.stream = r₂.stream ∧ r₁.logitBias = r₂.logitBias ∧
  r₁.user = r₂.user ∧ r₁.extraParams = r₂.extraParams

/-- Two completion requests agree on every field other than top-p. -/
def sameExceptTopP (r₁ r₂ : CompletionRequest) : Prop :=
  r₁.model = r₂.model ∧ r₁.messages = r₂.messages ∧
  r₁.temperature = r₂.temperature ∧ r₁.maxTokens = r₂.maxTokens ∧
  r₁.frequencyPenalty = r₂.frequencyPenalty ∧
  r₁.presencePenalty = r₂.presencePenalty ∧ r₁.stop = r₂.stop ∧
  r₁.stream = r₂.stream ∧ r₁.logitBias = r₂.logitBias ∧
  r₁.user = r₂.user ∧ r₁.extraParams = r₂.extraParams

/-- Two completion requests agree on every field other than the user
identifier. -/
def sameExceptUser (r₁ r₂ : CompletionRequest) : Prop :=
  r₁.model = r₂.model ∧ r₁.messages = r₂.messages ∧
  r₁.temperature = r₂.temperature ∧ r₁.maxTokens = r₂.maxTokens ∧
  r₁.topP = r₂.topP ∧ r₁.frequencyPenalty = r₂.frequencyPenalty ∧
  r₁.presencePenalty = r₂.presencePenalty ∧ r₁.stop = r₂.stop ∧
  r₁.stream = r₂.stream ∧ r₁.logitBias = r₂.logitBias ∧
  r₁.extraParams = r₂.extraParams

/-- Two completion requests agree on every field other than the
extra-parameters bag. -/
def sameExceptExtraParams (r₁ r₂ : CompletionRequest) : Prop :=
  r₁.model = r₂.model ∧ r₁.messages = r₂.messages ∧
  r₁.temperature = r₂.temperature ∧ r₁.maxTokens = r₂.maxTokens ∧
  r₁.topP = r₂.topP ∧ r₁.frequencyPenalty = r₂.frequencyPenalty ∧
  r₁.presencePenalty = r₂.presencePenalty ∧ r₁.stop = r₂.stop ∧
  r₁.stream = r₂.stream ∧ r₁.logitBias = r₂.logitBias ∧
  r₁.user = r₂.user

/-- The results of `n` successive `Recv` calls on an OpenAI stream. -/
def openAIRecvTrace (decode : String → Option OpenAIStreamChunk) :
    Nat → OpenAIStreamState → List RecvResult
  | 0, _ => []
  | n + 1, s =>
    let out := openAIRecv decode s
    out.1 :: openAIRecvTrace decode n out.2

/-- The content of each chunk result in a receive trace (first choice's
message content, as the source always emits exactly one choice). -/
def chunkContents (rs : List RecvResult) : List String :=
  rs.filterMap (fun r =>
    match r with
    | .chunk c =>
      some (match c.choices with
            | ch :: _ => ch.message.content
            | [] => "")
    | _ => none)

/-- Decode oracle for the spec's streaming example: the three
vendor-A-shaped events (a role-only delta, a `"Hi"` content delta, and
a `" there"` content delta carrying finish reason `"stop"`), named by
payload tags standing for their JSON texts. -/
def c5decode : String → Option OpenAIStreamChunk
  | "event-role" =>
    some { choices := [{ index := 0, delta := { role := "assistant" } }] }
  | "event-hi" =>
    some { choices := [{ index := 0, delta := { content := "Hi" } }] }
  | "event-there" =>
    some { choices :=
      [{ index := 0, delta := { content := " there" }, finishReason := "stop" }] }
  | _ => none

/-- The wire lines of the spec's streaming example, ending in the
`[DONE]` sentinel. -/
def c5lines : List String :=
  ["data: event-role", "data: event-hi", "data: event-there", "data: [DONE]"]

/-- A Gemini vendor response whose usage omits the total (Go zero
value `0`) while reporting prompt and candidate token counts. -/
def gUsageOmitted : GeminiResponse :=
  { candidates :=
      [{ content := { role := "model", parts := [{ text := "hi" }] }
         finishReason := "STOP", index := 0 }]
    usage := { promptTokenCount := 3, candidatesTokenCount := 5, totalTokenCount := 0 } }

/-- Decode oracle for the Gemini silent-skip counterexample: one
well-formed chunk payload, everything else failing to decode. -/
def c4decode : String → Option GeminiResponse
  | "good-chunk" =>
    some { candidates :=
      [{ content := { role := "model", parts := [{ text := "X" }] }
         finishReason := "", index := 0 }] }
  | _ => none

/-! ## Helper lemmas -/

theorem string_mk_data (s : String) : String.mk s.data = s := by
  cases s
  rfl

theorem stripPrefixChars_append (p r : List Char) :
    stripPrefixChars p (p ++ r) = some r := by
  induction p with
  | nil => rfl
  | cons c cs ih => simp [stripPrefixChars, ih]

theorem stripDataMarker_append (p : String) :
    stripDataMarker ("data: " ++ p) = some p := by
  unfold stripDataMarker
  rw [String.data_append]
  rw [stripPrefixChars_append]
  simp [string_mk_data]

theorem dataLine_ne_empty (p : String) : ("data: " ++ p) ≠ "" := by
  intro h
  have h2 := congrArg String.data h
  simp [String.data_append] at h2

theorem isCommentLine_dataLine (p : String) :
    isCommentLine ("data: " ++ p) = false := by
  have h : ("data: " ++ p).data =
      'd' :: ('a' :: 't' :: 'a' :: ':' :: ' ' :: p.data) := by
    rw [String.data_append]
    rfl
  unfold isCommentLine
  rw [h]
  rfl

theorem splitFirstSlash_no_slash (cs : List Char) (h : '/' ∉ cs) :
    splitFirstSlash cs = none := by
  induction cs with
  | nil => rfl
  | cons c rest ih =>
    have hc : ¬c = '/' := fun he => h (by simp [he])
    have hr : '/' ∉ rest := fun hm => h (List.mem_cons_of_mem _ hm)
    simp [splitFirstSlash, hc, ih hr]

theorem splitFirstSlash_append (a b : List Char) (h : '/' ∉ a) :
    splitFirstSlash (a ++ '/' :: b) = some (a, b) := by
  induction a with
  | nil => simp [splitFirstSlash]
  | cons c rest ih =>
    have hc : ¬c = '/' := fun he => h (by simp [he])
    have hr : '/' ∉ rest := fun hm => h (List.mem_cons_of_mem _ hm)
    simp [splitFirstSlash, hc, ih hr]

theorem parseModelIdentifier_split (a b : String) (h : '/' ∉ a.data) :
    parseModelIdentifier (a ++ "/" ++ b) = .ok (a, b) := by
  unfold parseModelIdentifier
  have hdata : (a ++ "/" ++ b).data = a.data ++ '/' :: b.data := by
    simp [String.data_append]
  rw [hdata, splitFirstSlash_append a.data b.data h]

theorem tryRoutes_all_fail (call : String → Except GoError CompletionResponse)
    (fb : String) :
    ∀ cands : List ModelRoute,
      (∀ c ∈ cands, isOkB (call c.modelID) = false) →
      tryRoutes call fb cands =
        (call fb, cands.map (fun c => c.modelID) ++ [fb]) := by
  intro cands
  induction cands with
  | nil => intro _; rfl
  | cons c cs ih =>
    intro h
    have hc := h c (List.mem_cons_self c cs)
    cases hcall : call c.modelID with
    | ok r => rw [hcall] at hc; simp [isOkB] at hc
    | error e =>
      simp only [tryRoutes, hcall]
      rw [ih (fun c' hc' => h c' (List.mem_cons_of_mem c hc'))]
      simp

theorem tryRoutes_first_success (call : String → Except GoError CompletionResponse)
    (fb : String) :
    ∀ (cands : List ModelRoute) (i : Nat) (h : i < cands.length),
      (∀ j (hj : j < cands.length), j < i →
        isOkB (call (cands.get ⟨j, hj⟩).modelID) = false) →
      isOkB (call (cands.get ⟨i, h⟩).modelID) = true →
      tryRoutes call fb cands =
        (call (cands.get ⟨i, h⟩).modelID,
         (cands.take (i + 1)).map (fun c => c.modelID)) := by
  intro cands
  induction cands with
  | nil => intro i h; exact absurd h (Nat.not_lt_zero i)
  | cons c cs ih =>
    intro i h hfail hok
    cases i with
    | zero =>
      have hget : ((c :: cs).get ⟨0, h⟩) = c := rfl
      rw [hget] at hok ⊢
      cases hcall : call c.modelID with
      | error e => rw [hcall] at hok; simp [isOkB] at hok
      | ok r => simp [tryRoutes, hcall]
    | succ i' =>
      have h0 : isOkB (call c.modelID) = false :=
        hfail 0 (Nat.succ_pos _) (Nat.succ_pos _)
      cases hcall : call c.modelID with
      | ok r => rw [hcall] at h0; simp [isOkB] at h0
      | error e =>
        have h' : i' < cs.length := Nat.lt_of_succ_lt_succ h
        have hfail' : ∀ j (hj : j < cs.length), j < i' →
            isOkB (call (cs.get ⟨j, hj⟩).modelID) = false := by
          intro j hj hji
          exact hfail (j + 1) (Nat.succ_lt_succ hj) (Nat.succ_lt_succ hji)
        have hok' : isOkB (call (cs.get ⟨i', h'⟩).modelID) = true := hok
        simp only [tryRoutes, hcall]
        rw [ih i' h' hfail' hok']
        simp [List.take_succ_cons]

/-- C1: with routes configured for a task type and a fallback model,
the router returns the response of the first candidate (in priority
order) whose completion succeeds, attempting exactly the candidates up
to and including it and never a later one; when every candidate fails
(or the candidate list is empty), it attempts the single fallback model
exactly once, and the call's outcome is the fallback's outcome — in
particular the fallback's error when the fallback also fails.  The
attempt trace records the qualified model ids invoked, in order. -/
theorem routeCompletion_first_success_or_fallback (r : RouterConfig)
    (taskType : String) (call : String → Except GoError CompletionResponse) :
    (∀ i (h : i < (sortRoutes (routesForTask r taskType)).length),
      (∀ j (hj : j < (sortRoutes (routesForTask r taskType)).length), j < i →
        isOkB (call ((sortRoutes (routesForTask r taskType)).get ⟨j, hj⟩).modelID) = false) →
      isOkB (call ((sortRoutes (routesForTask r taskType)).get ⟨i, h⟩).modelID) = true →
      routeCompletion r taskType call =
        (call ((sortRoutes (routesForTask r taskType)).get ⟨i, h⟩).modelID,
         ((sortRoutes (routesForTask r taskType)).take (i + 1)).map (fun c => c.modelID))) ∧
    ((∀ c ∈ sortRoutes (routesForTask r taskType), isOkB (call c.modelID) = false) →
      routeCompletion r taskType call =
        (call r.fallbackModel,
         (sortRoutes (routesForTask r taskType)).map (fun c => c.modelID) ++
           [r.fallbackModel])) := by
  constructor
  · intro i h hfail hok
    exact tryRoutes_first_success call r.fallbackModel _ i h hfail hok
  · intro hall
    exact tryRoutes_all_fail call r.fallbackModel _ hall

/-- Witness for C1 at the spec's own example: routes for task `T` are
`a/x` (priority 3) and `a/y` (priority 2) with fallback `a/z`; when
every call fails, the trace is exactly `a/x`, `a/y`, `a/z` and the
outcome is the fallback's error. -/
theorem routeCompletion_first_success_or_fallback_witness :
    routeCompletion
      { routes := [⟨"T", "a/x", 3, 0⟩, ⟨"T", "a/y", 2, 0⟩], fallbackModel := "a/z" }
      "T" (fun _ => .error (.upstream "p" "500" "oops")) =
      (.error (.upstream "p" "500" "oops"), ["a/x", "a/y", "a/z"]) := by
  have h := (routeCompletion_first_success_or_fallback
    { routes := [⟨"T", "a/x", 3, 0⟩, ⟨"T", "a/y", 2, 0⟩], fallbackModel := "a/z" }
    "T" (fun _ => .error (.upstream "p" "500" "oops"))).2 (by decide)
  exact h.trans (by decide)

/-- C2: resolving a qualified model identifier fails with the
invalid-identifier error when the string contains no `'/'`, with the
provider-not-found error when the prefix before the first `'/'` is not
registered, with the model-unsupported error when the resolved
provider's `SupportsModel` rejects the remainder, and otherwise
succeeds with that provider and the bare model name. -/
theorem getProviderForModel_cases (reg : List RegProvider) (s : String) :
    ('/' ∉ s.data →
      getProviderForModel reg s = .error (.invalidIdentifier s)) ∧
    (∀ pn mn : String, '/' ∉ pn.data → s = pn ++ "/" ++ mn →
      findProvider reg pn = none →
      getProviderForModel reg s = .error (.providerNotFound pn)) ∧
    (∀ (pn mn : String) (p : RegProvider), '/' ∉ pn.data → s = pn ++ "/" ++ mn →
      findProvider reg pn = some p → supportsModel p mn = false →
      getProviderForModel reg s = .error (.modelUnsupported mn pn)) ∧
    (∀ (pn mn : String) (p : RegProvider), '/' ∉ pn.data → s = pn ++ "/" ++ mn →
      findProvider reg pn = some p → supportsModel p mn = true →
      getProviderForModel reg s = .ok (p, mn)) := by
  refine ⟨?_, ?_, ?_, ?_⟩
  · intro h
    unfold getProviderForModel parseModelIdentifier
    rw [splitFirstSlash_no_slash s.data h]
  · intro pn mn hpn hs hfind
    subst hs
    unfold getProviderForModel
    rw [parseModelIdentifier_split pn mn hpn]
    simp [hfind]
  · intro pn mn p hpn hs hfind hsup
    subst hs
    unfold getProviderForModel
    rw [parseModelIdentifier_split pn mn hpn]
    simp [hfind, hsup]
  · intro pn mn p hpn hs hfind hsup
    subst hs
    unfold getProviderForModel
    rw [parseModelIdentifier_split pn mn hpn]
    simp [hfind, hsup]

/-- Witness for C2 at the spec's own examples against a registry
holding the OpenAI adapter: `"gpt-4o"` (no slash) is an invalid
identifier, `"unknownvendor/x"` hits provider-not-found,
`"openai/not-a-real-model"` hits model-unsupported, and
`"openai/gpt-4o"` resolves. -/
theorem getProviderForModel_cases_witness :
    getProviderForModel [⟨"openai", openaiModels⟩] "gpt-4o" =
      .error (.invalidIdentifier "gpt-4o") ∧
    getProviderForModel [⟨"openai", openaiModels⟩] ("unknownvendor" ++ "/" ++ "x") =
      .error (.providerNotFound "unknownvendor") ∧
    getProviderForModel [⟨"openai", openaiModels⟩] ("openai" ++ "/" ++ "not-a-real-model") =
      .error (.modelUnsupported "not-a-real-model" "openai") ∧
    getProviderForModel [⟨"openai", openaiModels⟩] ("openai" ++ "/" ++ "gpt-4o") =
      .ok (⟨"openai", openaiModels⟩, "gpt-4o") := by
  refine ⟨?_, ?_, ?_, ?_⟩
  · exact (getProviderForModel_cases [⟨"openai", openaiModels⟩] "gpt-4o").1 (by decide)
  · exact (getProviderForModel_cases [⟨"openai", openaiModels⟩] _).2.1
      "unknownvendor" "x" (by decide) rfl (by decide)
  · exact (getProviderForModel_cases [⟨"openai", openaiModels⟩] _).2.2.1
      "openai" "not-a-real-model" ⟨"openai", openaiModels⟩ (by decide) rfl
      (by decide) (by decide)
  · exact (getProviderForModel_cases [⟨"openai", openaiModels⟩] _).2.2.2
      "openai" "gpt-4o" ⟨"openai", openaiModels⟩ (by decide) rfl
      (by decide) (by decide)

/-- C8: identifier resolution splits on the first `'/'` only — for any
prefix without a slash, the provider name is that prefix and the model
name is the entire remainder, so the model name may itself contain
`'/'`. -/
theorem parseModelIdentifier_first_slash (a b : String) (h : '/' ∉ a.data) :
    parseModelIdentifier (a ++ "/" ++ b) = .ok (a, b) :=
  parseModelIdentifier_split a b h

/-- Witness for C8: resolving `"p/a/b"` yields provider `"p"` and
model `"a/b"`. -/
theorem parseModelIdentifier_first_slash_witness :
    parseModelIdentifier ("p" ++ "/" ++ "a/b") = .ok ("p", "a/b") :=
  parseModelIdentifier_first_slash "p" "a/b" (by decide)

/-- C3 (amended): the Anthropic adapter's non-chunk responses always
satisfy `usage.total = usage.prompt + usage.completion` (the total is
recomputed from the vendor's input and output counts); the OpenAI and
Google adapters copy the three usage fields verbatim from the vendor
report, with no recomputation of an omitted total. -/
theorem usage_total_mapping :
    (∀ (now : Int) (resp : AnthropicResponse),
      (anthropicConvertResponse now resp).usage.totalTokens =
        (anthropicConvertResponse now resp).usage.promptTokens +
          (anthropicConvertResponse now resp).usage.completionTokens) ∧
    (∀ resp : OpenAIResponse,
      (openaiConvertResponse resp).usage =
        ⟨resp.usage.promptTokens, resp.usage.completionTokens,
         resp.usage.totalTokens⟩) ∧
    (∀ (nano now : Int) (model : String) (resp : GeminiResponse),
      (geminiConvertResponse nano now model resp).usage =
        ⟨resp.usage.promptTokenCount, resp.usage.candidatesTokenCount,
         resp.usage.totalTokenCount⟩) :=
  ⟨fun _ _ => rfl, fun _ => rfl, fun _ _ _ _ => rfl⟩

/-- Counterexample to C3 as stated: a Google vendor response that
reports 3 prompt and 5 completion tokens but omits the total (Go zero
value) yields, through the Google adapter's `Completion`, a non-chunk
response with populated usage whose total is 0, not 3 + 5: the total
is not recomputed when the vendor omits it. -/
theorem usage_total_mapping_counterexample :
    ((googleCompletion 0 0 (googleNewProviderWithKey "key")
        { model := "gemini-2.0-flash" }
        (fun _ => .ok gUsageOmitted)).1.map
      (fun r => (r.usage.promptTokens, r.usage.completionTokens,
                 r.usage.totalTokens))) = .ok (3, 5, 0) ∧
    (0 : Int) ≠ 3 + 5 := by
  constructor
  · rfl
  · decide

/-- C6: for each of the three adapters, `Completion` and
`CompletionStream` on a provider whose credential string is empty fail
with the missing-credential error without any network activity (the
recorded network flag is `false`, for every transport oracle), and
constructing a provider with any credential — including the empty one —
always succeeds, storing the key. -/
theorem missing_credential_gate :
    (∀ (now : Int) (p : AnthropicProvider) req http, p.apiKey = "" →
      anthropicCompletion now p req http =
        (.error (.missingCredential "anthropic"), false)) ∧
    (∀ (p : AnthropicProvider) req http, p.apiKey = "" →
      anthropicCompletionStream p req http =
        (.error (.missingCredential "anthropic"), false)) ∧
    (∀ (p : OpenAIProvider) req http, p.apiKey = "" →
      openaiCompletion p req http =
        (.error (.missingCredential "openai"), false)) ∧
    (∀ (p : OpenAIProvider) req http, p.apiKey = "" →
      openaiCompletionStream p req http =
        (.error (.missingCredential "openai"), false)) ∧
    (∀ (nano now : Int) (p : GoogleProvider) req http, p.apiKey = "" →
      googleCompletion nano now p req http =
        (.error (.missingCredential "google"), false)) ∧
    (∀ (p : GoogleProvider) req http, p.apiKey = "" →
      googleCompletionStream p req http =
        (.error (.missingCredential "google"), false)) ∧
    (∀ k, (anthropicNewProviderWithKey k).apiKey = k) ∧
    (∀ k, (openaiNewProviderWithKey k).apiKey = k) ∧
    (∀ k, (googleNewProviderWithKey k).apiKey = k) := by
  refine ⟨?_, ?_, ?_, ?_, ?_, ?_, fun _ => rfl, fun _ => rfl, fun _ => rfl⟩
  · intro now p req http h; simp [anthropicCompletion, h]
  · intro p req http h; simp [anthropicCompletionStream, h]
  · intro p req http h; simp [openaiCompletion, h]
  · intro p req http h; simp [openaiCompletionStream, h]
  · intro nano now p req http h; simp [googleCompletion, h]
  · intro p req http h; simp [googleCompletionStream, h]

/-- Witness for C6: every entry point, on its provider constructed with
the empty credential, fails with the missing-credential error and the
network untouched. -/
theorem missing_credential_gate_witness :
    anthropicCompletion 0 (anthropicNewProviderWithKey "") {}
      (fun _ => .ok {}) = (.error (.missingCredential "anthropic"), false) ∧
    anthropicCompletionStream (anthropicNewProviderWithKey "") {}
      (fun _ => .ok []) = (.error (.missingCredential "anthropic"), false) ∧
    openaiCompletion (openaiNewProviderWithKey "") {}
      (fun _ => .ok {}) = (.error (.missingCredential "openai"), false) ∧
    openaiCompletionStream (openaiNewProviderWithKey "") {}
      (fun _ => .ok []) = (.error (.missingCredential "openai"), false) ∧
    googleCompletion 0 0 (googleNewProviderWithKey "") {}
      (fun _ => .ok {}) = (.error (.missingCredential "google"), false) ∧
    googleCompletionStream (googleNewProviderWithKey "") {}
      (fun _ => .ok []) = (.error (.missingCredential "google"), false) :=
  ⟨missing_credential_gate.1 0 _ _ _ rfl,
   missing_credential_gate.2.1 _ _ _ rfl,
   missing_credential_gate.2.2.1 _ _ _ rfl,
   missing_credential_gate.2.2.2.1 _ _ _ rfl,
   missing_credential_gate.2.2.2.2.1 0 0 _ _ _ rfl,
   missing_credential_gate.2.2.2.2.2.1 _ _ _ rfl⟩

/-- C9: a stream marked finished answers every further `Recv` with
end-of-sequence immediately, leaving the stream state — including the
unread connection content — untouched, for all three vendors. -/
theorem recv_after_finished_eof :
    (∀ decode (s : OpenAIStreamState), s.streamFinished = true →
      openAIRecv decode s = (.eof, s)) ∧
    (∀ decode (now : Int) (s : AnthropicStreamState), s.streamFinished = true →
      anthropicRecv decode now s = (.eof, s)) ∧
    (∀ decode (nano now : Int) (s : GeminiStreamState), s.streamFinished = true →
      geminiRecv decode nano now s = (.eof, s)) := by
  refine ⟨?_, ?_, ?_⟩
  · intro decode s h; simp [openAIRecv, h]
  · intro decode now s h; simp [anthropicRecv, h]
  · intro decode nano now s h; simp [geminiRecv, h]

/-- Witness for C9: finished streams with pending unread lines still
return end-of-sequence unchanged. -/
theorem recv_after_finished_eof_witness :
    openAIRecv (fun _ => none)
      { streamFinished := true, lines := ["data: more"] } =
      (.eof, { streamFinished := true, lines := ["data: more"] }) ∧
    anthropicRecv (fun _ => none) 0
      { streamFinished := true, lines := ["data: more"] } =
      (.eof, { streamFinished := true, lines := ["data: more"] }) ∧
    geminiRecv (fun _ => none) 0 0
      { streamFinished := true, lines := ["data: more"] } =
      (.eof, { streamFinished := true, lines := ["data: more"] }) :=
  ⟨recv_after_finished_eof.1 _ _ rfl,
   recv_after_finished_eof.2.1 _ 0 _ rfl,
   recv_after_finished_eof.2.2 _ 0 0 _ rfl⟩

/-- C10: the Anthropic wire request — for both the completion and the
streaming path — carries `max_tokens` 4096 when the caller supplied no
max-tokens option, and the caller's value unchanged otherwise. -/
theorem anthropic_max_tokens_default (req : CompletionRequest) :
    (req.maxTokens = none →
      (anthropicBuildCompletionRequest req).maxTokens = 4096 ∧
      (anthropicBuildStreamRequest req).maxTokens = 4096) ∧
    (∀ v : Int, req.maxTokens = some v →
      (anthropicBuildCompletionRequest req).maxTokens = v ∧
      (anthropicBuildStreamRequest req).maxTokens = v) := by
  constructor
  · intro h
    constructor
    · simp [anthropicBuildCompletionRequest, h]
    · simp [anthropicBuildStreamRequest, h]
  · intro v h
    constructor
    · simp [anthropicBuildCompletionRequest, h]
    · simp [anthropicBuildStreamRequest, h]

/-- Witness for C10: a request without a max-tokens option wires 4096;
one built with `WithMaxTokens 100` wires 100. -/
theorem anthropic_max_tokens_default_witness :
    ((anthropicBuildCompletionRequest {}).maxTokens = 4096 ∧
      (anthropicBuildStreamRequest {}).maxTokens = 4096) ∧
    ((anthropicBuildCompletionRequest (withMaxTokens 100 {})).maxTokens = 100 ∧
      (anthropicBuildStreamRequest (withMaxTokens 100 {})).maxTokens = 100) :=
  ⟨(anthropic_max_tokens_default {}).1 rfl,
   (anthropic_max_tokens_default (withMaxTokens 100 {})).2 100 rfl⟩

theorem openAIRecvAux_decode_failure (decode : String → Option OpenAIStreamChunk)
    (s : OpenAIStreamState) (p : String) (rest : List String)
    (hp : p ≠ "[DONE]") (hd : decode p = none) :
    openAIRecvAux decode s (("data: " ++ p) :: rest) =
      (.parseFailure p, { s with lines := rest }) := by
  simp [openAIRecvAux, dataLine_ne_empty p, isCommentLine_dataLine,
        stripDataMarker_append, hp, hd]

theorem anthropicRecvAux_decode_failure (decode : String → Option AnthropicEvent)
    (now : Int) (provider id : String) (p : String) (rest : List String)
    (hp : p ≠ "[DONE]") (hd : decode p = none) :
    anthropicRecvAux decode now provider id (("data: " ++ p) :: rest) =
      { result := .parseFailure p, id := id, finished := false, rest := rest } := by
  simp [anthropicRecvAux, dataLine_ne_empty p, stripDataMarker_append, hp, hd]

theorem geminiRecvAux_decode_failure_skip (decode : String → Option GeminiResponse)
    (nano now : Int) (provider : String) (p : String) (rest : List String)
    (hp : p ≠ "[DONE]") (hd : decode p = none)
    (hcf : containsChars "finishReason".data p.data = false) :
    geminiRecvAux decode nano now provider (("data: " ++ p) :: rest) =
      geminiRecvAux decode nano now provider rest := by
  simp [geminiRecvAux, dataLine_ne_empty p, stripDataMarker_append, hp, hd, hcf]

theorem geminiRecvAux_decode_failure_finish (decode : String → Option GeminiResponse)
    (nano now : Int) (provider : String) (p : String) (rest : List String)
    (hp : p ≠ "[DONE]") (hd : decode p = none)
    (hcf : containsChars "finishReason".data p.data = true) :
    geminiRecvAux decode nano now provider (("data: " ++ p) :: rest) =
      { result := .eof, finished := true, rest := rest } := by
  simp [geminiRecvAux, dataLine_ne_empty p, stripDataMarker_append, hp, hd, hcf]

/-- C4 (amended): when `Recv` reads a data-marked line whose payload is
not the end sentinel and fails to decode, the OpenAI and Anthropic
streams surface the failure as an error; the Google stream never does —
it ends the stream when the undecodable payload mentions
`finishReason` and otherwise skips the line silently, continuing with
the rest of the connection. -/
theorem recv_decode_failure_handling :
    (∀ decode (s : OpenAIStreamState) p rest, s.streamFinished = false →
      s.lines = ("data: " ++ p) :: rest → p ≠ "[DONE]" → decode p = none →
      openAIRecv decode s = (.parseFailure p, { s with lines := rest })) ∧
    (∀ decode (now : Int) (s : AnthropicStreamState) p rest,
      s.streamFinished = false →
      s.lines = ("data: " ++ p) :: rest → p ≠ "[DONE]" → decode p = none →
      anthropicRecv decode now s = (.parseFailure p, { s with lines := rest })) ∧
    (∀ decode (nano now : Int) (s : GeminiStreamState) p rest,
      s.streamFinished = false →
      s.lines = ("data: " ++ p) :: rest → p ≠ "[DONE]" → decode p = none →
      containsChars "finishReason".data p.data = false →
      geminiRecv decode nano now s =
        geminiRecv decode nano now { s with lines := rest }) ∧
    (∀ decode (nano now : Int) (s : GeminiStreamState) p rest,
      s.streamFinished = false →
      s.lines = ("data: " ++ p) :: rest → p ≠ "[DONE]" → decode p = none →
      containsChars "finishReason".data p.data = true →
      geminiRecv decode nano now s =
        (.eof, { s with streamFinished := true, lines := rest })) := by
  refine ⟨?_, ?_, ?_, ?_⟩
  · intro decode s p rest hf hl hp hd
    simp [openAIRecv, hf, hl, openAIRecvAux_decode_failure decode s p rest hp hd]
  · intro decode now s p rest hf hl hp hd
    simp [anthropicRecv, hf, hl,
          anthropicRecvAux_decode_failure decode now s.provider s.id p rest hp hd]
  · intro decode nano now s p rest hf hl hp hd hcf
    simp [geminiRecv, hf, hl,
          geminiRecvAux_decode_failure_skip decode nano now s.provider p rest hp hd hcf]
  · intro decode nano now s p rest hf hl hp hd hcf
    simp [geminiRecv, hf, hl,
          geminiRecvAux_decode_failure_finish decode nano now s.provider p rest hp hd hcf]

/-- Witness for C4 (amended): with a decoder that rejects everything,
an OpenAI stream and an Anthropic stream at a data-marked non-sentinel
line surface a parse failure, and a Google stream at an undecodable
line mentioning `finishReason` ends. -/
theorem recv_decode_failure_handling_witness :
    openAIRecv (fun _ => none)
      { provider := "openai", lines := ["data: " ++ "broken"] } =
      (.parseFailure "broken", { provider := "openai", lines := [] }) ∧
    anthropicRecv (fun _ => none) 0
      { provider := "anthropic", lines := ["data: " ++ "broken"] } =
      (.parseFailure "broken", { provider := "anthropic", lines := [] }) ∧
    geminiRecv (fun _ => none) 0 0
      { provider := "google", lines := ["data: " ++ "has finishReason inside"] } =
      (.eof, { provider := "google", streamFinished := true, lines := [] }) :=
  ⟨recv_decode_failure_handling.1 (fun _ => none) _ "broken" [] rfl rfl
      (by decide) rfl,
   recv_decode_failure_handling.2.1 (fun _ => none) 0 _ "broken" [] rfl rfl
      (by decide) rfl,
   recv_decode_failure_handling.2.2.2 (fun _ => none) 0 0 _
      "has finishReason inside" [] rfl rfl (by decide) rfl (by decide)⟩

/-- Counterexample to C4 as stated: the Google stream, fed a
data-marked line `data: bad-payload` that is not a control line and
whose payload fails to decode, does not return an error — it silently
skips the line and returns the chunk decoded from the following line. -/
theorem recv_decode_failure_counterexample :
    geminiRecv c4decode 0 0
      { provider := "google", lines := ["data: bad-payload", "data: good-chunk"] } =
      (.chunk
        { id := "google-0", object := "chat.completion.chunk", created := 0,
          choices := [{ index := 0,
                        message := { role := "assistant", content := "X" },
                        finishReason := "" }],
          provider := "google" },
       { provider := "google", streamFinished := false, lines := [] }) := by
  decide

/-- C5: feeding the spec's vendor-A event sequence (a role-only delta,
a `"Hi"` content delta, a `" there"` content delta with finish reason
`"stop"`, then the `[DONE]` sentinel) to the OpenAI stream yields a
role-announcing chunk with empty content, then the two content-bearing
chunks `"Hi"` and `" there"` in order, then end-of-sequence, and every
`Recv` after the sentinel is end-of-sequence: the content-bearing
chunks are exactly `"Hi"` and `" there"`. -/
theorem openai_stream_example :
    openAIRecvTrace c5decode 5 { provider := "openai", lines := c5lines } =
      [.chunk { id := "", object := "chat.completion.chunk", created := 0,
                model := "",
                choices := [{ index := 0,
                              message := { role := "assistant", content := "" },
                              finishReason := "" }],
                provider := "openai" },
       .chunk { id := "", object := "chat.completion.chunk", created := 0,
                model := "",
                choices := [{ index := 0,
                              message := { role := "assistant", content := "Hi" },
                              finishReason := "" }],
                provider := "openai" },
       .chunk { id := "", object := "chat.completion.chunk", created := 0,
                model := "",
                choices := [{ index := 0,
                              message := { role := "assistant", content := " there" },
                              finishReason := "stop" }],
                provider := "openai" },
       .eof, .eof] ∧
    (chunkContents (openAIRecvTrace c5decode 5
        { provider := "openai", lines := c5lines })).filter (fun c => c != "") =
      ["Hi", " there"] := by
  constructor
  · decide
  · decide

theorem assocFind_append (l₁ l₂ : List (String × GoValue)) (k : String) :
    assocFind (l₁ ++ l₂) k =
      match assocFind l₁ k with
      | some v => some v
      | none => assocFind l₂ k := by
  induction l₁ with
  | nil => simp [assocFind]
  | cons kv rest ih =>
    obtain ⟨a, b⟩ := kv
    by_cases hak : a = k <;> simp [assocFind, hak, ih]

theorem assocFind_insert (m : List (String × GoValue)) (k : String) (v : GoValue)
    (k' : String) :
    assocFind (assocInsert m k v) k' =
      if k = k' then some v else assocFind m k' := by
  induction m with
  | nil =>
    by_cases h : k = k' <;> simp [assocInsert, assocFind, h]
  | cons kv rest ih =>
    obtain ⟨a, b⟩ := kv
    by_cases hak : a = k
    · subst hak
      by_cases hk' : a = k' <;> simp [assocInsert, assocFind, hk']
    · by_cases hk' : a = k'
      · subst hk'
        have hkk : ¬k = a := fun h => hak h.symm
        simp [assocInsert, assocFind, hak, hkk]
      · simp [assocInsert, assocFind, hak, hk', ih]

theorem assocFind_foldl_insert (ps : List (String × GoValue)) :
    ∀ (m : List (String × GoValue)) (k : String),
      assocFind (ps.foldl (fun m kv => assocInsert m kv.1 kv.2) m) k =
        match assocFind ps.reverse k with
        | some v => some v
        | none => assocFind m k := by
  induction ps with
  | nil => intro m k; simp [assocFind]
  | cons kv rest ih =>
    obtain ⟨a, v⟩ := kv
    intro m k
    simp only [List.foldl_cons, List.reverse_cons]
    rw [ih, assocFind_append]
    cases h : assocFind rest.reverse k with
    | some w => simp
    | none =>
      simp only []
      rw [assocFind_insert]
      by_cases hak : a = k <;> simp [assocFind, hak]

/-- C7 (amended): each option mutates exactly the field it owns —
`WithTemperature`, `WithMaxTokens`, `WithTopP` and `WithUser` set their
field and leave every other field unchanged, and a later application of
the same option overrides the earlier one entirely; `WithExtraParams`
mutates only the extra-parameters bag, but a later application merges
into the result of the earlier one (equivalently, two applications
equal one application of the concatenated parameter list), the later
value winning per key; and the entry-point loop applies options in call
order. -/
theorem option_frame_and_override :
    (∀ req t, (withTemperature t req).temperature = some t ∧
      sameExceptTemperature (withTemperature t req) req) ∧
    (∀ req n, (withMaxTokens n req).maxTokens = some n ∧
      sameExceptMaxTokens (withMaxTokens n req) req) ∧
    (∀ req t, (withTopP t req).topP = some t ∧
      sameExceptTopP (withTopP t req) req) ∧
    (∀ req u, (withUser u req).user = u ∧
      sameExceptUser (withUser u req) req) ∧
    (∀ req ps, sameExceptExtraParams (withExtraParams ps req) req) ∧
    (∀ req t₁ t₂, withTemperature t₂ (withTemperature t₁ req) =
      withTemperature t₂ req) ∧
    (∀ req n₁ n₂, withMaxTokens n₂ (withMaxTokens n₁ req) =
      withMaxTokens n₂ req) ∧
    (∀ req t₁ t₂, withTopP t₂ (withTopP t₁ req) = withTopP t₂ req) ∧
    (∀ req u₁ u₂, withUser u₂ (withUser u₁ req) = withUser u₂ req) ∧
    (∀ req ps₁ ps₂, withExtraParams ps₂ (withExtraParams ps₁ req) =
      withExtraParams (ps₁ ++ ps₂) req) ∧
    (∀ req ps k, assocFind (withExtraParams ps req).extraParams k =
      match assocFind ps.reverse k with
      | some v => some v
      | none => assocFind req.extraParams k) ∧
    (∀ modelName messages opts opt,
      llmBuildRequest modelName messages (opts ++ [opt]) =
        opt (llmBuildRequest modelName messages opts)) := by
  refine ⟨?_, ?_, ?_, ?_, ?_, ?_, ?_, ?_, ?_, ?_, ?_, ?_⟩
  · intro req t
    exact ⟨rfl, rfl, rfl, rfl, rfl, rfl, rfl, rfl, rfl, rfl, rfl, rfl⟩
  · intro req n
    exact ⟨rfl, rfl, rfl, rfl, rfl, rfl, rfl, rfl, rfl, rfl, rfl, rfl⟩
  · intro req t
    exact ⟨rfl, rfl, rfl, rfl, rfl, rfl, rfl, rfl, rfl, rfl, rfl, rfl⟩
  · intro req u
    exact ⟨rfl, rfl, rfl, rfl, rfl, rfl, rfl, rfl, rfl, rfl, rfl, rfl⟩
  · intro req ps
    exact ⟨rfl, rfl, rfl, rfl, rfl, rfl, rfl, rfl, rfl, rfl, rfl⟩
  · intro req t₁ t₂; rfl
  · intro req n₁ n₂; rfl
  · intro req t₁ t₂; rfl
  · intro req u₁ u₂; rfl
  · intro req ps₁ ps₂
    simp [withExtraParams, List.foldl_append]
  · intro req ps k
    exact assocFind_foldl_insert ps req.extraParams k
  · intro modelName messages opts opt
    simp [llmBuildRequest, List.foldl_append]

/-- Counterexample to C7 as stated: `WithExtraParams` twice in sequence
does not have the later application override the earlier one — the bags
are merged, so applying it after an earlier application differs from
applying the later option alone. -/
theorem option_frame_and_override_counterexample :
    withExtraParams [("b", .vint 2)] (withExtraParams [("a", .vint 1)] {}) ≠
      withExtraParams [("b", .vint 2)] ({} : CompletionRequest) := by
  decide

end GoLLM
